import Mathlib

/-!
Verification development for the trust-verification core of the
apex-athletics-os backend.

The two source files embedded here are
`apps/api/src/routes/billingWebhook.ts` (function `verifyStripeSignature`,
the webhook verifier) and `apps/api/src/middleware/clerkMiddleware.ts`
(functions `getJWKS` and `verifyClerkToken`, the key-set cache and token
verifier).  JavaScript strings are Lean `String`s, numbers are `Int`/`Nat`,
`undefined`/absent fields are `Option`, and a thrown error / `return false`
site becomes a tagged constructor of an error type.  External collaborators
(the HMAC primitive, the base64url+JSON decoders, the RSA signature check
and the network fetch) are parameters of the embedded functions, exactly as
the code treats them as opaque calls.
-/

deriving instance DecidableEq for Except

namespace ApexAuth

/-- JS `String.prototype.split` with a one-character separator, on the
character list of the string: `"".split(c)` is `[""]`, separators at the
ends and adjacent separators produce empty segments. -/
def splitOnChar (sep : Char) (l : List Char) : List (List Char) :=
  l.foldr
    (fun c acc =>
      match acc with
      | [] => [[c]]
      | cur :: rest => if c = sep then [] :: cur :: rest else (c :: cur) :: rest)
    [[]]

/-- JS `s.split(sep)` for a one-character separator, on strings. -/
def jsSplit (sep : Char) (s : String) : List String :=
  (splitOnChar sep s.toList).map String.mk

/-! ## Webhook verifier: `billingWebhook.ts`, `verifyStripeSignature` -/

/-- Failure kinds of the webhook verifier.  Each constructor corresponds to
one distinct `return false` site of `verifyStripeSignature`. -/
inductive WebhookError where
  | malformedSignatureHeader
  | replayedOrStaleWebhook
  | signatureMismatch
deriving DecidableEq, Repr

/-- Embeds the header parsing loop of `verifyStripeSignature` (lines 35-41):
`signature.split(',')`, then for each element `element.split('=')` with
destructuring `[key, value]` — the value is `undefined` (`none`) when the
element has no `=`, and any third component is dropped. -/
def parseSigHeader (signature : String) : List (String × Option String) :=
  (jsSplit ',' signature).map (fun element =>
    match jsSplit '=' element with
    | [] => ("", none)
    | [k] => (k, none)
    | k :: v :: _ => (k, some v))

/-- Embeds the JS object-map lookup `signatureMap[key]`: the loop assigns in
order, so a later pair with the same key overwrites an earlier one; an
absent key reads as `undefined` (`none`). -/
def lookupSig (pairs : List (String × Option String)) (k : String) : Option String :=
  pairs.foldl (fun acc p => if p.1 = k then p.2 else acc) none

/-- JS truthiness of a possibly-undefined string (`!timestamp`,
`!v1Signature` on line 46): `undefined` and the empty string are falsy. -/
def truthyStr : Option String → Option String
  | none => none
  | some s => if s = "" then none else some s

/-- Accumulates the value of a leading run of decimal digits;
`none` when the run is empty (the `NaN` case of `parseInt`). -/
def takeDigitsVal (l : List Char) : Option Nat :=
  let ds := l.takeWhile (fun c => c.isDigit)
  if ds.isEmpty then none
  else some (ds.foldl (fun acc c => acc * 10 + (c.toNat - 48)) 0)

/-- Embeds `parseInt(s, 10)` (line 51): skip leading whitespace, optional
sign, then a leading run of decimal digits; `NaN` (`none`) when no digit
follows. -/
def parseIntJS (s : String) : Option Int :=
  match s.toList.dropWhile (fun c => c.isWhitespace) with
  | '-' :: rest => (takeDigitsVal rest).map (fun n => -(n : Int))
  | '+' :: rest => (takeDigitsVal rest).map (fun n => (n : Int))
  | l => (takeDigitsVal l).map (fun n => (n : Int))

/-- One hexadecimal digit, lowercase, as `Number.prototype.toString(16)`
produces. -/
def hexDigit (n : Nat) : Char :=
  if n < 10 then Char.ofNat (48 + n) else Char.ofNat (87 + n)

/-- Hex digits of a nonnegative integer, most significant first; the first
argument is recursion fuel (always sufficient when it exceeds the digit
count). -/
def toHexAux : Nat → Nat → List Char
  | 0, _ => []
  | fuel + 1, n =>
    if n < 16 then [hexDigit n]
    else toHexAux fuel (n / 16) ++ [hexDigit (n % 16)]

/-- Embeds `b.toString(16)` for a nonnegative integer. -/
def toHexNat (n : Nat) : List Char := toHexAux (n + 1) n

/-- Embeds `b.toString(16).padStart(2, '0')` (line 72). -/
def byteToHex (b : Nat) : List Char :=
  let s := toHexNat b
  if s.length < 2 then '0' :: s else s

/-- Embeds the hex encoding of the HMAC bytes (lines 71-73):
each byte to two lowercase hex digits, joined. -/
def hexEncode (bytes : List Nat) : String :=
  String.mk (bytes.map byteToHex).flatten

/-- The comparison the code performs on line 76: JS `===` on the two hex
strings. -/
def stripeCompare (a b : String) : Bool := a == b

/-- Cost model of the string equality that `===` performs: character
comparisons proceed left to right and stop at the first mismatch (or at a
length mismatch already detected), so the count below is the number of
character-compare steps an early-exit equality executes. -/
def compareSteps : List Char → List Char → Nat
  | [], _ => 1
  | _ :: _, [] => 1
  | a :: as, b :: bs => if a = b then 1 + compareSteps as bs else 1

/-- Step count of `stripeCompare` under the early-exit cost model. -/
def stripeCompareSteps (a b : String) : Nat := compareSteps a.toList b.toList

/-- The replay test of lines 51-53: `timestampAge = nowSec -
parseInt(timestamp, 10)` and `timestampAge > 300`.  When `parseInt` yields
`NaN`, the JS comparison `NaN > 300` is `false`, so the stale branch is not
taken. -/
def staleCheck (nowSec : Int) (timestamp : String) : Bool :=
  match parseIntJS timestamp with
  | none => false
  | some n => decide (nowSec - n > 300)

/-- Embeds `verifyStripeSignature(payload, signature, secret)`
(billingWebhook.ts lines 29-77).  `hmacSHA256 secret message` stands for
the opaque WebCrypto call `crypto.subtle.sign('HMAC', key(secret),
message)` returning the raw MAC bytes; `nowSec` is the value of
`Math.floor(Date.now() / 1000)` read on line 51.  The three `return false`
sites are tagged with the corresponding `WebhookError`. -/
def verifyStripeSignature (hmacSHA256 : String → String → List Nat)
    (nowSec : Int) (payload signature secret : String) :
    Except WebhookError Unit :=
  let pairs := parseSigHeader signature
  match truthyStr (lookupSig pairs "t"), truthyStr (lookupSig pairs "v1") with
  | some timestamp, some v1Signature =>
    if staleCheck nowSec timestamp then .error .replayedOrStaleWebhook
    else
      let signedPayload := timestamp ++ "." ++ payload
      let expectedSignature := hexEncode (hmacSHA256 secret signedPayload)
      if stripeCompare expectedSignature v1Signature then .ok ()
      else .error .signatureMismatch
  | _, _ => .error .malformedSignatureHeader

/-! ## Key-set cache and token verifier: `clerkMiddleware.ts` -/

/-- A JWK entry as declared in clerkMiddleware.ts (lines 11-18); only the
fields the verifier reads are kept (`use` and `alg` are never consulted). -/
structure JWK where
  kty : String
  kid : String
  n : String
  e : String
deriving DecidableEq, Repr

/-- The JWKS payload: a `keys` array (lines 20-22). -/
structure JWKS where
  keys : List JWK
deriving DecidableEq, Repr

/-- The decoded JWT payload (lines 24-33); absent JSON fields are `none`.
`exp` and `iat` are unix seconds. -/
structure JWTPayload where
  sub : String
  email : Option String
  first_name : Option String
  last_name : Option String
  exp : Option Int
  iat : Option Int
  iss : Option String
  azp : Option String
deriving DecidableEq, Repr

/-- The decoded JWT header; the code reads only `header.kid` (line 124). -/
structure JWTHeader where
  kid : Option String
deriving DecidableEq, Repr

/-- Failure kinds of the token path; each constructor is one `throw` site of
`verifyClerkToken`/`getJWKS`, tagged by its message.  `headerDecodeError`
and `payloadDecodeError` stand for the exceptions `atob`/`JSON.parse` throw
on undecodable segments (lines 123 and 131-133), which propagate untagged. -/
inductive TokenError where
  | invalidJWTFormat
  | headerDecodeError
  | missingKid
  | payloadDecodeError
  | tokenExpired
  | invalidIssuer
  | jwksFetchFailed
  | signingKeyNotFound
  | invalidSignature
deriving DecidableEq, Repr

/-- The module-level cache cell `jwksCache` (line 47): the fetched keys and
`Date.now()` at fetch time (milliseconds).  `null` is `none`. -/
structure JwksCacheEntry where
  keys : JWKS
  fetchedAt : Int
deriving DecidableEq, Repr

/-- `JWKS_CACHE_TTL` (line 48): one hour in milliseconds. -/
def JWKS_CACHE_TTL : Int := 3600000

/-- Embeds `getJWKS(issuer)` (clerkMiddleware.ts lines 54-72).
`fetchFn url` stands for the network round-trip: `some jwks` when the HTTP
response is ok and its body parses, `none` when the fetch fails (the code
then throws before touching the cache).  `now` is `Date.now()` in
milliseconds; `cache` is the value of the module-level `jwksCache` cell on
entry.  Returns the result together with the cell's value on exit. -/
def getJWKS (fetchFn : String → Option JWKS) (now : Int)
    (cache : Option JwksCacheEntry) (issuer : String) :
    Except TokenError JWKS × Option JwksCacheEntry :=
  match cache with
  | some c =>
    if now - c.fetchedAt < JWKS_CACHE_TTL then (.ok c.keys, cache)
    else
      match fetchFn (issuer ++ "/.well-known/jwks.json") with
      | none => (.error .jwksFetchFailed, cache)
      | some jwks => (.ok jwks, some ⟨jwks, now⟩)
  | none =>
    match fetchFn (issuer ++ "/.well-known/jwks.json") with
    | none => (.error .jwksFetchFailed, cache)
    | some jwks => (.ok jwks, some ⟨jwks, now⟩)

/-- `l` contains `sub` as a contiguous sublist; embeds JS
`String.prototype.includes` on character lists. -/
def hasSubstr (sub : List Char) : List Char → Bool
  | [] => sub.isEmpty
  | c :: t => sub.isPrefixOf (c :: t) || hasSubstr sub t

/-- Embeds `payload.iss.includes('clerk')` (line 141). -/
def issuerContainsClerk (iss : String) : Bool :=
  hasSubstr "clerk".toList iss.toList

/-- The JS condition `payload.exp && Date.now() >= payload.exp * 1000`
(line 136): a missing `exp` and the falsy value `0` skip the check;
otherwise the token is expired once `now` (ms) reaches `exp` (s) times
1000. -/
def expCheckTrips (exp : Option Int) (now : Int) : Bool :=
  match exp with
  | none => false
  | some e => e ≠ 0 && now ≥ e * 1000

/-- Embeds `verifyClerkToken(token)` (clerkMiddleware.ts lines 114-170).
`decodeHeader`/`decodePayload` stand for `JSON.parse(atob(...))` on the
base64url segment (`none` = the decode throws); `verifySig jwk sigB64
signingInput` stands for the WebCrypto RSA verification of lines 154-163;
`fetchFn`/`now`/`cache` are threaded into `getJWKS` as in the source.  The
`!kid` test on line 126 is falsy for both an absent and an empty `kid`.
Returns the result together with the `jwksCache` cell's value on exit. -/
def verifyClerkToken (decodeHeader : String → Option JWTHeader)
    (decodePayload : String → Option JWTPayload)
    (verifySig : JWK → String → String → Bool)
    (fetchFn : String → Option JWKS) (now : Int)
    (cache : Option JwksCacheEntry) (token : String) :
    Except TokenError JWTPayload × Option JwksCacheEntry :=
  match jsSplit '.' token with
  | [headerB64, payloadB64, signatureB64] =>
    match decodeHeader headerB64 with
    | none => (.error .headerDecodeError, cache)
    | some header =>
      match truthyStr header.kid with
      | none => (.error .missingKid, cache)
      | some kid =>
        match decodePayload payloadB64 with
        | none => (.error .payloadDecodeError, cache)
        | some payload =>
          if expCheckTrips payload.exp now then (.error .tokenExpired, cache)
          else
            match truthyStr payload.iss with
            | none => (.error .invalidIssuer, cache)
            | some iss =>
              if !issuerContainsClerk iss then (.error .invalidIssuer, cache)
              else
                match getJWKS fetchFn now cache iss with
                | (.error e, cache1) => (.error e, cache1)
                | (.ok jwks, cache1) =>
                  match jwks.keys.find? (fun k => k.kid == kid) with
                  | none => (.error .signingKeyNotFound, cache1)
                  | some jwk =>
                    if verifySig jwk signatureB64 (headerB64 ++ "." ++ payloadB64)
                    then (.ok payload, cache1)
                    else (.error .invalidSignature, cache1)
  | _ => (.error .invalidJWTFormat, cache)

/-! ## Helper lemmas -/

/-- Once the header has yielded a truthy timestamp and `v1` value, the
verifier is the stale test followed by the hex comparison. -/
theorem verifyStripe_unfold (hmac : String → String → List Nat) (nowSec : Int)
    (payload sig secret ts v1 : String)
    (ht : truthyStr (lookupSig (parseSigHeader sig) "t") = some ts)
    (hv : truthyStr (lookupSig (parseSigHeader sig) "v1") = some v1) :
    verifyStripeSignature hmac nowSec payload sig secret =
      if staleCheck nowSec ts then .error .replayedOrStaleWebhook
      else if stripeCompare (hexEncode (hmac secret (ts ++ "." ++ payload))) v1
      then .ok () else .error .signatureMismatch := by
  simp only [verifyStripeSignature, ht, hv]

/-- `getJWKS` has a single error site: a failed fetch. -/
theorem getJWKS_fst_error (f : String → Option JWKS) (now : Int)
    (cache : Option JwksCacheEntry) (issuer : String) (e : TokenError)
    (cache1 : Option JwksCacheEntry)
    (h : getJWKS f now cache issuer = (.error e, cache1)) :
    e = .jwksFetchFailed := by
  unfold getJWKS at h
  rcases cache with _ | c
  · rcases hf : f (issuer ++ "/.well-known/jwks.json") with _ | j <;> simp_all
  · by_cases hlt : now - c.fetchedAt < JWKS_CACHE_TTL
    · simp [hlt] at h
    · rcases hf : f (issuer ++ "/.well-known/jwks.json") with _ | j <;> simp_all [hlt]

/-! ## Claim theorems -/

/-- C2 (code_bug evidence): the comparison `verifyStripeSignature` performs
on line 76 is JS `===`, an early-exit equality, not the constant-time check
the claim (and the code's own comment on line 75) requires.  Against the
expected hex string `"0000"`, a `v1` value mismatching at the first
character costs 1 comparison step while one mismatching at the last
character costs 4 steps, although both pairs have equal length and both
compare unequal — so the comparison time depends on the position of the
first mismatching byte. -/
theorem stripeCompare_not_constant_time :
    stripeCompare "0000" "1000" = false ∧ stripeCompare "0000" "0001" = false ∧
    ("0000" : String).length = ("1000" : String).length ∧
    ("0000" : String).length = ("0001" : String).length ∧
    stripeCompareSteps "0000" "1000" = 1 ∧ stripeCompareSteps "0000" "0001" = 4 := by
  decide

/-- C4 (counterexample): an envelope whose timestamp field is not parseable
as a number is NOT rejected before cryptographic work.  With header
`t=x,v1=00` the `parseInt` result is `NaN`, `NaN > 300` is `false`, and the
verifier goes on to compute and compare the HMAC: under an HMAC oracle
returning byte `0x00` the envelope is even accepted, while under one
returning `0x01` it reaches the signature comparison — the outcome depends
on the HMAC, so the HMAC is computed. -/
theorem verifyStripe_nan_timestamp_cex :
    verifyStripeSignature (fun _ _ => [0]) 1000 "p" "t=x,v1=00" "s" = .ok () ∧
    verifyStripeSignature (fun _ _ => [1]) 1000 "p" "t=x,v1=00" "s" =
      .error .signatureMismatch := by
  decide

/-- C4 (amended): an envelope whose signature header lacks a truthy
timestamp or a truthy `v1` value is rejected with
`malformedSignatureHeader`, and the result does not depend on the HMAC
function — no cryptographic work is observed.  (A present but non-numeric
timestamp, by contrast, parses to `NaN` and is not rejected at this stage.) -/
theorem verifyStripe_malformed_before_crypto
    (nowSec : Int) (payload sig secret : String)
    (h : truthyStr (lookupSig (parseSigHeader sig) "t") = none ∨
      truthyStr (lookupSig (parseSigHeader sig) "v1") = none) :
    ∀ hmac : String → String → List Nat,
      verifyStripeSignature hmac nowSec payload sig secret =
        .error .malformedSignatureHeader := by
  intro hmac
  rcases h with h | h <;>
    rcases ht : truthyStr (lookupSig (parseSigHeader sig) "t") with _ | ts <;>
    rcases hv : truthyStr (lookupSig (parseSigHeader sig) "v1") with _ | v1 <;>
    simp_all [verifyStripeSignature]

/-- C4 (witness for the amended theorem): header `v1=00` has no timestamp
pair at all. -/
theorem verifyStripe_malformed_before_crypto_witness :
    verifyStripeSignature (fun _ _ => [0]) 1000 "p" "v1=00" "s" =
      .error .malformedSignatureHeader :=
  verifyStripe_malformed_before_crypto 1000 "p" "v1=00" "s" (Or.inl (by decide))
    (fun _ _ => [0])

/-- C6: once the header parses to a truthy timestamp string and `v1` value
and the timestamp parses to `n`, the verifier fails with
`replayedOrStaleWebhook` exactly when the age `nowSec - n` exceeds 300
seconds; and inside the window an envelope whose `v1` equals the
hex-encoded HMAC of `timestamp.payload` verifies successfully. -/
theorem verifyStripe_replay_window (hmac : String → String → List Nat)
    (nowSec : Int) (payload sig secret ts v1 : String) (n : Int)
    (ht : truthyStr (lookupSig (parseSigHeader sig) "t") = some ts)
    (hv : truthyStr (lookupSig (parseSigHeader sig) "v1") = some v1)
    (hn : parseIntJS ts = some n) :
    (verifyStripeSignature hmac nowSec payload sig secret =
        .error .replayedOrStaleWebhook ↔ nowSec - n > 300) ∧
    (nowSec - n ≤ 300 → hexEncode (hmac secret (ts ++ "." ++ payload)) = v1 →
      verifyStripeSignature hmac nowSec payload sig secret = .ok ()) := by
  rw [verifyStripe_unfold hmac nowSec payload sig secret ts v1 ht hv]
  have hst : staleCheck nowSec ts = decide (nowSec - n > 300) := by
    simp only [staleCheck, hn]
  rw [hst]
  by_cases hage : nowSec - n > 300
  · rw [decide_eq_true hage]
    exact ⟨by simp [hage], fun h1 _ => absurd hage (by omega)⟩
  · rw [decide_eq_false hage]
    refine ⟨?_, fun _ hsig => by simp [stripeCompare, hsig]⟩
    simp only [Bool.false_eq_true, if_false, iff_false]
    by_cases hc : stripeCompare (hexEncode (hmac secret (ts ++ "." ++ payload))) v1 <;>
      simp [hc, hage]

/-- C6 (witness): with `t = 1000` an HMAC oracle returning byte `0x00` and
`v1 = "00"`, the call at `nowSec = 1301` (age 301) is rejected as replayed
and the call at `nowSec = 1299` (age 299) succeeds. -/
theorem verifyStripe_replay_window_witness :
    verifyStripeSignature (fun _ _ => [0]) 1301 "p" "t=1000,v1=00" "s" =
      .error .replayedOrStaleWebhook ∧
    verifyStripeSignature (fun _ _ => [0]) 1299 "p" "t=1000,v1=00" "s" = .ok () :=
  ⟨(verifyStripe_replay_window (fun _ _ => [0]) 1301 "p" "t=1000,v1=00" "s" "1000" "00"
      1000 (by decide) (by decide) (by decide)).1.mpr (by decide),
   (verifyStripe_replay_window (fun _ _ => [0]) 1299 "p" "t=1000,v1=00" "s" "1000" "00"
      1000 (by decide) (by decide) (by decide)).2 (by decide) (by decide)⟩

/-- C8: the webhook round-trip.  For any HMAC oracle, secret, payload and
in-window timestamp, supplying `hex(HMAC(secret, timestamp.payload))` as
the `v1` value verifies successfully; and replaying the same header with a
tampered payload whose recomputed MAC's hex differs fails with
`signatureMismatch`. -/
theorem verifyStripe_roundtrip (hmac : String → String → List Nat)
    (nowSec : Int) (payload payload2 sig secret ts v1 : String) (n : Int)
    (ht : truthyStr (lookupSig (parseSigHeader sig) "t") = some ts)
    (hv : truthyStr (lookupSig (parseSigHeader sig) "v1") = some v1)
    (hn : parseIntJS ts = some n)
    (hin : nowSec - n ≤ 300)
    (hsig : hexEncode (hmac secret (ts ++ "." ++ payload)) = v1) :
    verifyStripeSignature hmac nowSec payload sig secret = .ok () ∧
    (hexEncode (hmac secret (ts ++ "." ++ payload2)) ≠ v1 →
      verifyStripeSignature hmac nowSec payload2 sig secret =
        .error .signatureMismatch) := by
  have hst : staleCheck nowSec ts = false := by
    simp only [staleCheck, hn]
    exact decide_eq_false (by omega)
  constructor
  · rw [verifyStripe_unfold hmac nowSec payload sig secret ts v1 ht hv, hst]
    simp [stripeCompare, hsig]
  · intro hne
    rw [verifyStripe_unfold hmac nowSec payload2 sig secret ts v1 ht hv, hst]
    simp [stripeCompare, hne]

/-- C8 (witness): a content-dependent HMAC oracle (sum of code points mod
256) on secret `s`: payload `"p"` signs to hex `"5f"` and verifies; the
tampered payload `"q"` recomputes to `"60" ≠ "5f"` and is rejected with
`signatureMismatch`. -/
theorem verifyStripe_roundtrip_witness :
    verifyStripeSignature
        (fun _ m => [(m.toList.foldl (fun a c => a + c.toNat) 0) % 256])
        1000 "p" "t=1000,v1=5f" "s" = .ok () ∧
    verifyStripeSignature
        (fun _ m => [(m.toList.foldl (fun a c => a + c.toNat) 0) % 256])
        1000 "q" "t=1000,v1=5f" "s" = .error .signatureMismatch := by
  have h := verifyStripe_roundtrip
    (fun _ m => [(m.toList.foldl (fun a c => a + c.toNat) 0) % 256])
    1000 "p" "q" "t=1000,v1=5f" "s" "1000" "5f" 1000
    (by decide) (by decide) (by decide) (by decide) (by decide)
  exact ⟨h.1, h.2 (by decide)⟩

/-- C7: a credential whose dot-split does not have exactly three segments
fails with the malformed-credential error (`Invalid JWT format`) with no
further processing: no decoder, verifier or fetcher is consulted and the
cache cell is untouched. -/
theorem verifyClerkToken_malformed_of_not_three_segments
    (dh : String → Option JWTHeader) (dp : String → Option JWTPayload)
    (vs : JWK → String → String → Bool) (f : String → Option JWKS)
    (now : Int) (cache : Option JwksCacheEntry) (token : String)
    (h : (jsSplit '.' token).length ≠ 3) :
    verifyClerkToken dh dp vs f now cache token =
      (.error .invalidJWTFormat, cache) := by
  simp only [verifyClerkToken]
  rcases hl : jsSplit '.' token with _ | ⟨a, _ | ⟨b, _ | ⟨c, _ | ⟨d, t⟩⟩⟩⟩ <;>
    rw [hl] at h
  all_goals first | rfl | exact absurd rfl h

/-- C7 (witness): a two-segment credential is rejected as malformed. -/
theorem verifyClerkToken_malformed_witness :
    verifyClerkToken (fun _ => some ⟨some "k"⟩) (fun _ => none) (fun _ _ _ => true)
      (fun _ => none) 0 none "a.b" = (.error .invalidJWTFormat, none) :=
  verifyClerkToken_malformed_of_not_three_segments _ _ _ _ _ _ _ (by decide)

/-- C5 (counterexample): a credential whose claims carry the expiry instant
`exp = 0` is NOT rejected as expired even though the current instant
(999999 ms) is past instant 0: `payload.exp` is falsy, the check is
skipped, and verification proceeds to the key-set fetch (failing here with
the fetch error, not the expiry error). -/
theorem verifyClerkToken_exp_zero_cex :
    verifyClerkToken (fun _ => some ⟨some "k"⟩)
      (fun _ => some ⟨"u1", none, none, none, some 0, none, some "https://clerk.x", none⟩)
      (fun _ _ _ => true) (fun _ => none) 999999 none "a.b.c" =
      (.error .jwksFetchFailed, none) ∧
    TokenError.jwksFetchFailed ≠ TokenError.tokenExpired := by
  decide

/-- C5 (amended): for a decoded credential whose claims carry a NONZERO
expiry instant `e` (seconds), verification fails with the expiry error
whenever the current instant `now` (milliseconds) is at or past
`e * 1000`; the boundary `now = e * 1000` is rejected, with no grace
window. -/
theorem verifyClerkToken_expired_at_or_past_exp
    (dh : String → Option JWTHeader) (dp : String → Option JWTPayload)
    (vs : JWK → String → String → Bool) (f : String → Option JWKS)
    (now : Int) (cache : Option JwksCacheEntry) (token hB pB sB kid : String)
    (header : JWTHeader) (payload : JWTPayload) (e : Int)
    (hsplit : jsSplit '.' token = [hB, pB, sB])
    (hdh : dh hB = some header)
    (hkid : truthyStr header.kid = some kid)
    (hdp : dp pB = some payload)
    (hexp : payload.exp = some e)
    (he : e ≠ 0)
    (hnow : now ≥ e * 1000) :
    verifyClerkToken dh dp vs f now cache token = (.error .tokenExpired, cache) := by
  have htrip : expCheckTrips payload.exp now = true := by
    simp [expCheckTrips, hexp, he, hnow]
  simp [verifyClerkToken, hsplit, hdh, hkid, hdp, htrip]

/-- C5 (witness for the amended theorem): `exp = 1` second, current instant
exactly `1000` ms — the boundary instant — is rejected as expired. -/
theorem verifyClerkToken_expired_witness :
    verifyClerkToken (fun _ => some ⟨some "k"⟩)
      (fun _ => some ⟨"u1", none, none, none, some 1, none, some "https://clerk.x", none⟩)
      (fun _ _ _ => true) (fun _ => none) 1000 none "a.b.c" =
      (.error .tokenExpired, none) :=
  verifyClerkToken_expired_at_or_past_exp (fun _ => some ⟨some "k"⟩)
    (fun _ => some ⟨"u1", none, none, none, some 1, none, some "https://clerk.x", none⟩)
    (fun _ _ _ => true) (fun _ => none) 1000 none "a.b.c" "a" "b" "c" "k"
    ⟨some "k"⟩ ⟨"u1", none, none, none, some 1, none, some "https://clerk.x", none⟩ 1
    (by decide) rfl (by decide) rfl rfl (by decide) (by decide)

/-- C3 (counterexample): the issuer is NOT examined before the expiry
claim, and missing/untrusted issuers do not get distinct failure kinds.
A credential with no issuer and a past expiry fails with the
expired error (first run), not an issuer error; a credential with no
issuer and no expiry and one with the untrusted issuer
`https://evil.example` both fail with the same `Invalid token issuer`
error (second and third runs). -/
theorem verifyClerkToken_issuer_order_cex :
    verifyClerkToken (fun _ => some ⟨some "k"⟩)
        (fun _ => some ⟨"u1", none, none, none, some 1, none, none, none⟩)
        (fun _ _ _ => true) (fun _ => none) 2000 none "a.b.c" =
      (.error .tokenExpired, none) ∧
    TokenError.tokenExpired ≠ TokenError.invalidIssuer ∧
    verifyClerkToken (fun _ => some ⟨some "k"⟩)
        (fun _ => some ⟨"u1", none, none, none, none, none, none, none⟩)
        (fun _ _ _ => true) (fun _ => none) 2000 none "a.b.c" =
      (.error .invalidIssuer, none) ∧
    verifyClerkToken (fun _ => some ⟨some "k"⟩)
        (fun _ => some ⟨"u1", none, none, none, none, none, some "https://evil.example", none⟩)
        (fun _ _ _ => true) (fun _ => none) 2000 none "a.b.c" =
      (.error .invalidIssuer, none) := by
  decide

/-- C3 (amended): after decoding and the kid check, `verifyClerkToken`
examines the expiry claim BEFORE the issuer: a tripping expiry fails with
the expired error regardless of the issuer; only when the expiry check does
not trip is the issuer examined, and a missing issuer and an issuer not
containing `clerk` both fail with the same invalid-issuer error. -/
theorem verifyClerkToken_expiry_before_issuer
    (dh : String → Option JWTHeader) (dp : String → Option JWTPayload)
    (vs : JWK → String → String → Bool) (f : String → Option JWKS)
    (now : Int) (cache : Option JwksCacheEntry) (token hB pB sB kid : String)
    (header : JWTHeader) (payload : JWTPayload)
    (hsplit : jsSplit '.' token = [hB, pB, sB])
    (hdh : dh hB = some header)
    (hkid : truthyStr header.kid = some kid)
    (hdp : dp pB = some payload) :
    (expCheckTrips payload.exp now = true →
      verifyClerkToken dh dp vs f now cache token = (.error .tokenExpired, cache)) ∧
    (expCheckTrips payload.exp now = false → truthyStr payload.iss = none →
      verifyClerkToken dh dp vs f now cache token = (.error .invalidIssuer, cache)) ∧
    (expCheckTrips payload.exp now = false →
      ∀ iss, truthyStr payload.iss = some iss → issuerContainsClerk iss = false →
      verifyClerkToken dh dp vs f now cache token = (.error .invalidIssuer, cache)) := by
  refine ⟨fun htrip => ?_, fun htrip hiss => ?_, fun htrip iss hiss hclerk => ?_⟩
  · simp [verifyClerkToken, hsplit, hdh, hkid, hdp, htrip]
  · simp [verifyClerkToken, hsplit, hdh, hkid, hdp, htrip, hiss]
  · simp [verifyClerkToken, hsplit, hdh, hkid, hdp, htrip, hiss, hclerk]

/-- C3 (witness for the amended theorem): a credential without expiry and
without issuer fails with the invalid-issuer error. -/
theorem verifyClerkToken_expiry_before_issuer_witness :
    verifyClerkToken (fun _ => some ⟨some "k"⟩)
      (fun _ => some ⟨"u1", none, none, none, none, none, none, none⟩)
      (fun _ _ _ => true) (fun _ => none) 2000 none "a.b.c" =
      (.error .invalidIssuer, none) :=
  (verifyClerkToken_expiry_before_issuer (fun _ => some ⟨some "k"⟩)
    (fun _ => some ⟨"u1", none, none, none, none, none, none, none⟩)
    (fun _ _ _ => true) (fun _ => none) 2000 none "a.b.c" "a" "b" "c" "k"
    ⟨some "k"⟩ ⟨"u1", none, none, none, none, none, none, none⟩
    (by decide) rfl (by decide) rfl).2.1 (by decide) (by decide)

/-- C10: when the decoded claims carry `exp = 0` — a falsy value in JS —
the expiry check on line 136 is skipped entirely, so verification never
fails with the expired error for such a credential, even though instant 0
is in the past. -/
theorem verifyClerkToken_exp_zero_never_expired
    (dh : String → Option JWTHeader) (dp : String → Option JWTPayload)
    (vs : JWK → String → String → Bool) (f : String → Option JWKS)
    (now : Int) (cache : Option JwksCacheEntry) (token hB pB sB : String)
    (payload : JWTPayload)
    (hsplit : jsSplit '.' token = [hB, pB, sB])
    (hdp : dp pB = some payload)
    (hexp : payload.exp = some 0) :
    (verifyClerkToken dh dp vs f now cache token).1 ≠ .error .tokenExpired := by
  have htrip : expCheckTrips payload.exp now = false := by
    simp [expCheckTrips, hexp]
  simp only [verifyClerkToken, hsplit, hdp, htrip, Bool.false_eq_true, if_false]
  cases hdh : dh hB with
  | none => simp [hdh]
  | some header =>
    cases hkid : truthyStr header.kid with
    | none => simp [hdh, hkid]
    | some kid =>
      cases hiss : truthyStr payload.iss with
      | none => simp [hdh, hkid, hiss]
      | some iss =>
        by_cases hclerk : issuerContainsClerk iss
        · rcases hg : getJWKS f now cache iss with ⟨res, cache1⟩
          cases res with
          | error e =>
            have he0 := getJWKS_fst_error f now cache iss e cache1 hg
            subst he0
            simp [hdh, hkid, hiss, hclerk, hg]
          | ok jwks =>
            cases hfind : jwks.keys.find? (fun k => k.kid == kid) with
            | none => simp [hdh, hkid, hiss, hclerk, hg, hfind]
            | some jwk =>
              by_cases hvs : vs jwk sB (hB ++ "." ++ pB) <;>
                simp [hdh, hkid, hiss, hclerk, hg, hfind, hvs]
        · simp [hdh, hkid, hiss, hclerk]

/-- C10 (witness): concrete credential with `exp = 0`, a trusted issuer and
a failing fetch: the outcome is the fetch error, never the expired error. -/
theorem verifyClerkToken_exp_zero_never_expired_witness :
    (verifyClerkToken (fun _ => some ⟨some "k"⟩)
      (fun _ => some ⟨"u2", none, none, none, some 0, none, some "https://clerk.y", none⟩)
      (fun _ _ _ => true) (fun _ => none) 123456 none "h.p.s").1 ≠
      .error .tokenExpired :=
  verifyClerkToken_exp_zero_never_expired (fun _ => some ⟨some "k"⟩)
    (fun _ => some ⟨"u2", none, none, none, some 0, none, some "https://clerk.y", none⟩)
    (fun _ _ _ => true) (fun _ => none) 123456 none "h.p.s" "h" "p" "s"
    ⟨"u2", none, none, none, some 0, none, some "https://clerk.y", none⟩
    (by decide) rfl rfl

/-- C1 (counterexample): the cache cell is a single slot not keyed by
issuer, so a snapshot cached for one issuer IS served for a different
issuer.  With a fetcher that records the fetched URL in the returned key's
`kid`, a `getJWKS` for issuer `https://a.clerk.dev` at time 0 fills the
cache; a `getJWKS` for issuer `https://b.clerk.dev` at time 10 (well inside
the TTL) returns the snapshot fetched from `a`'s well-known location,
which differs from what a fetch from `b`'s location yields. -/
theorem getJWKS_cross_issuer_cex :
    (getJWKS (fun u => some ⟨[⟨"RSA", u, "", ""⟩]⟩) 10
        (getJWKS (fun u => some ⟨[⟨"RSA", u, "", ""⟩]⟩) 0 none "https://a.clerk.dev").2
        "https://b.clerk.dev").1 =
      .ok ⟨[⟨"RSA", "https://a.clerk.dev/.well-known/jwks.json", "", ""⟩]⟩ ∧
    (fun u => some (JWKS.mk [⟨"RSA", u, "", ""⟩])) "https://b.clerk.dev/.well-known/jwks.json" =
      some ⟨[⟨"RSA", "https://b.clerk.dev/.well-known/jwks.json", "", ""⟩]⟩ ∧
    JWKS.mk [⟨"RSA", "https://a.clerk.dev/.well-known/jwks.json", "", ""⟩] ≠
      JWKS.mk [⟨"RSA", "https://b.clerk.dev/.well-known/jwks.json", "", ""⟩] := by
  decide

/-- C1 (amended): a successful `getJWKS issuer` returns either the single
cached snapshot — whenever it is younger than the 1-hour TTL, regardless of
which issuer it was originally fetched for — or a snapshot freshly fetched
from the requested issuer's well-known key-set location, which then
replaces the cache slot with fetch timestamp `now`. -/
theorem getJWKS_fresh_or_fetched (f : String → Option JWKS) (now : Int)
    (cache : Option JwksCacheEntry) (issuer : String) (jwks : JWKS)
    (cache1 : Option JwksCacheEntry)
    (h : getJWKS f now cache issuer = (.ok jwks, cache1)) :
    (∃ c, cache = some c ∧ now - c.fetchedAt < JWKS_CACHE_TTL ∧
      jwks = c.keys ∧ cache1 = cache) ∨
    (f (issuer ++ "/.well-known/jwks.json") = some jwks ∧
      cache1 = some ⟨jwks, now⟩) := by
  rcases cache with _ | c
  · simp only [getJWKS] at h
    rcases hf : f (issuer ++ "/.well-known/jwks.json") with _ | j
    · simp [hf] at h
    · simp only [hf, Prod.mk.injEq, Except.ok.injEq] at h
      obtain ⟨h1, h2⟩ := h
      subst h1
      exact Or.inr ⟨rfl, h2.symm⟩
  · simp only [getJWKS] at h
    by_cases hlt : now - c.fetchedAt < JWKS_CACHE_TTL
    · rw [if_pos hlt] at h
      simp only [Prod.mk.injEq, Except.ok.injEq] at h
      obtain ⟨h1, h2⟩ := h
      exact Or.inl ⟨c, rfl, hlt, h1.symm, h2.symm⟩
    · rw [if_neg hlt] at h
      rcases hf : f (issuer ++ "/.well-known/jwks.json") with _ | j
      · simp [hf] at h
      · simp only [hf, Prod.mk.injEq, Except.ok.injEq] at h
        obtain ⟨h1, h2⟩ := h
        subst h1
        exact Or.inr ⟨rfl, h2.symm⟩

/-- C1 (witness for the amended theorem): a miss at time 5 fetches from the
requested issuer's well-known location and installs the result. -/
theorem getJWKS_fresh_or_fetched_witness :
    (∃ c, (none : Option JwksCacheEntry) = some c ∧
      (5 : Int) - c.fetchedAt < JWKS_CACHE_TTL ∧ JWKS.mk [] = c.keys ∧
      some (JwksCacheEntry.mk ⟨[]⟩ 5) = none) ∨
    ((fun _ => some (JWKS.mk [])) ("https://a" ++ "/.well-known/jwks.json") =
        some (JWKS.mk []) ∧
      some (JwksCacheEntry.mk ⟨[]⟩ 5) = some ⟨⟨[]⟩, 5⟩) :=
  getJWKS_fresh_or_fetched (fun _ => some ⟨[]⟩) 5 none "https://a" ⟨[]⟩
    (some ⟨⟨[]⟩, 5⟩) (by decide)

/-- C9: when the cache holds no snapshot younger than the TTL and the fetch
fails, `getJWKS` surfaces the key-set-unavailable error (`Failed to fetch
JWKS`), leaves the cache cell exactly as it was, and does not serve any
previously cached snapshot for this call. -/
theorem getJWKS_fetch_failure_preserves_cache (f : String → Option JWKS)
    (now : Int) (cache : Option JwksCacheEntry) (issuer : String)
    (hstale : ∀ c, cache = some c → ¬ now - c.fetchedAt < JWKS_CACHE_TTL)
    (hf : f (issuer ++ "/.well-known/jwks.json") = none) :
    getJWKS f now cache issuer = (.error .jwksFetchFailed, cache) := by
  rcases cache with _ | c
  · simp only [getJWKS, hf]
  · simp only [getJWKS, if_neg (hstale c rfl), hf]

/-- C9 (witness): a cached snapshot exactly TTL old (stale) and a failing
fetch: the call errors and the stale entry is still in the cell, unserved. -/
theorem getJWKS_fetch_failure_preserves_cache_witness :
    getJWKS (fun _ => none) 3600000 (some ⟨⟨[]⟩, 0⟩) "https://a" =
      (.error .jwksFetchFailed, some ⟨⟨[]⟩, 0⟩) :=
  getJWKS_fetch_failure_preserves_cache (fun _ => none) 3600000
    (some ⟨⟨[]⟩, 0⟩) "https://a"
    (fun c hc => by injection hc with h1; subst h1; decide) rfl

end ApexAuth

example : ApexAuth.parseSigHeader "t=5,v1=ab" = [("t", some "5"), ("v1", some "ab")] := by decide

example : ApexAuth.parseIntJS "123" = some 123 := by decide

example : ApexAuth.parseIntJS "abc" = none := by decide

example : ApexAuth.hexEncode [0, 1, 255] = "0001ff" := by decide

example : ApexAuth.verifyStripeSignature (fun _ _ => [0]) 1000 "p" "t=900,v1=00" "s" = .ok () := by decide

example : ApexAuth.verifyStripeSignature (fun _ _ => [0]) 1000 "p" "t=600,v1=00" "s" = .error .replayedOrStaleWebhook := by decide

example : ApexAuth.verifyStripeSignature (fun _ _ => [0]) 1000 "p" "v1=00" "s" = .error .malformedSignatureHeader := by decide

example : ApexAuth.jsSplit '.' "a.b.c" = ["a", "b", "c"] := by decide

example : ApexAuth.jsSplit '.' "a.b" = ["a", "b"] := by decide

example : ApexAuth.issuerContainsClerk "https://x.clerk.accounts.dev" = true := by decide

example : ApexAuth.issuerContainsClerk "https://evil.example" = false := by decide

example :
    ApexAuth.verifyClerkToken (fun _ => some ⟨some "k1"⟩)
      (fun _ => some ⟨"u1", none, none, none, some 1, none, some "https://clerk.x", none⟩)
      (fun _ _ _ => true) (fun _ => none) 2000 none "a.b.c" =
    (.error .tokenExpired, none) := by decide

example :
    ApexAuth.getJWKS (fun u => some ⟨[⟨"RSA", u, "", ""⟩]⟩) 0 none "https://a" =
    (.ok ⟨[⟨"RSA", "https://a/.well-known/jwks.json", "", ""⟩]⟩,
      some ⟨⟨[⟨"RSA", "https://a/.well-known/jwks.json", "", ""⟩]⟩, 0⟩) := by decide
